import Mathlib

/-
  Verification of the natural-language specification of the wolfSSL CMS/PKCS#7
  message engine against the repository.  The repository ships only the public
  header wolfssl/wolfcrypt/pkcs7.h; every function body (pkcs7.c) is absent,
  so all behavioral definitions below are modelled from the specification's
  words, while the data model (structure fields, enumerations, limits)
  follows the header.  Cryptographic primitives (hash, sign/verify, block
  cipher, key wrap) are declared out of scope by the specification and are
  idealized here as exact, collision-free black boxes.
-/

namespace WolfPkcs7

/-- Byte strings are lists of naturals; a byte is valid when below 256. -/
abbrev Bytes := List Nat

/-- Max number of certificates that a PKCS7 structure can parse, from
wolfssl/wolfcrypt/pkcs7.h line 51 (MAX_PKCS7_CERTS, default 4). -/
def MAX_PKCS7_CERTS : Nat := 4

/-- PKCS#7 content-type enum values from wolfssl/wolfcrypt/pkcs7.h lines 55-67. -/
def DATA : Nat := 651

/-- SignedData content type, pkcs7.h line 58. -/
def SIGNED_DATA : Nat := 652

/-- EnvelopedData content type, pkcs7.h line 59. -/
def ENVELOPED_DATA : Nat := 653

/-- EncryptedData content type, pkcs7.h line 62. -/
def ENCRYPTED_DATA : Nat := 656

/-- SignerIdentifier type selectors, pkcs7.h lines 84-87. -/
def SID_ISSUER_AND_SERIAL_NUMBER : Nat := 0

/-- SubjectKeyIdentifier selector, pkcs7.h line 86. -/
def SID_SUBJECT_KEY_IDENTIFIER : Nat := 1

/-- RecipientInfo mechanism tags, pkcs7.h lines 90-96. -/
def PKCS7_KTRI : Nat := 0

/-- Key-agreement recipient tag, pkcs7.h line 92. -/
def PKCS7_KARI : Nat := 1

/-- Key-encryption-key recipient tag, pkcs7.h line 93. -/
def PKCS7_KEKRI : Nat := 2

/-- Error taxonomy of the specification, section 7: the kinds of failures the
PKCS#7 engine reports to the caller.  The type carries no payload, so an
error reveals nothing beyond its coarse category. -/
inductive PKCS7Error
  | MalformedEncoding
  | CapacityExceeded
  | UnsupportedContentType
  | UnsupportedAlgorithm
  | SignerNotFound
  | NoSignerInfo
  | SignatureVerifyFailed
  | NoMatchingRecipient
  | KeyUnwrapFailed
  | BadPadding
  | BufferTooSmall
  deriving DecidableEq

/-- Modelled from the spec: wc_PKCS7_GetPadSize (declared at pkcs7.h line 197,
pkcs7.c absent) computes the PKCS#7 pad length, blockSz minus the input size
modulo blockSz: a full block of blockSz padding bytes when the input size is
already a multiple of blockSz. -/
def wc_PKCS7_GetPadSize (inputSz blockSz : Nat) : Nat :=
  blockSz - inputSz % blockSz

/-- Modelled from the spec: wc_PKCS7_PadData (declared at pkcs7.h line 198,
pkcs7.c absent) appends the PKCS#7 padding: padSz bytes, each equal to the
pad length padSz. -/
def wc_PKCS7_PadData (input : Bytes) (blockSz : Nat) : Bytes :=
  input ++ List.replicate (wc_PKCS7_GetPadSize input.length blockSz)
                          (wc_PKCS7_GetPadSize input.length blockSz)

/-- Modelled from the spec: the padding validate-and-strip step of decode
(section 4.4; pkcs7.c absent).  Reads the last byte as the pad length, checks
that every byte of the pad region equals the pad length, and rejects with
BadPadding otherwise. -/
def pkcs7_UnpadData (buf : Bytes) : Except PKCS7Error Bytes :=
  match buf.getLast? with
  | none => Except.error PKCS7Error.BadPadding
  | some padSz =>
    if padSz = 0 ∨ buf.length < padSz then Except.error PKCS7Error.BadPadding
    else if (buf.drop (buf.length - padSz)).all (fun b => decide (b = padSz)) then
      Except.ok (buf.take (buf.length - padSz))
    else Except.error PKCS7Error.BadPadding

theorem padData_eq (input : Bytes) (blockSz : Nat) :
    wc_PKCS7_PadData input blockSz =
      input ++ List.replicate (wc_PKCS7_GetPadSize input.length blockSz)
                              (wc_PKCS7_GetPadSize input.length blockSz) := rfl

theorem getPadSize_pos (inputSz blockSz : Nat) (hB : 0 < blockSz) :
    0 < wc_PKCS7_GetPadSize inputSz blockSz := by
  have h := Nat.mod_lt inputSz hB
  unfold wc_PKCS7_GetPadSize
  omega

theorem getPadSize_le (inputSz blockSz : Nat) :
    wc_PKCS7_GetPadSize inputSz blockSz ≤ blockSz := by
  unfold wc_PKCS7_GetPadSize
  omega

theorem padData_length (input : Bytes) (blockSz : Nat) :
    (wc_PKCS7_PadData input blockSz).length =
      input.length + wc_PKCS7_GetPadSize input.length blockSz := by
  simp [wc_PKCS7_PadData]

theorem unpad_pad (x : Bytes) (blockSz : Nat) (hB : 0 < blockSz) :
    pkcs7_UnpadData (wc_PKCS7_PadData x blockSz) = Except.ok x := by
  have hp : 0 < wc_PKCS7_GetPadSize x.length blockSz := getPadSize_pos x.length blockSz hB
  set p := wc_PKCS7_GetPadSize x.length blockSz with hpdef
  obtain ⟨m, hm⟩ : ∃ m, p = m + 1 := ⟨p - 1, by omega⟩
  have hsplit : wc_PKCS7_PadData x blockSz = (x ++ List.replicate m p) ++ [p] := by
    rw [padData_eq, ← hpdef, hm, List.replicate_succ', ← List.append_assoc]
  have hlast : (wc_PKCS7_PadData x blockSz).getLast? = some p := by
    rw [hsplit]; exact List.getLast?_concat _
  have hlen : (wc_PKCS7_PadData x blockSz).length = x.length + p := padData_length x blockSz
  have hdrop : (wc_PKCS7_PadData x blockSz).drop x.length = List.replicate p p := by
    rw [padData_eq, ← hpdef, List.drop_left]
  have htake : (wc_PKCS7_PadData x blockSz).take x.length = x := by
    rw [padData_eq, ← hpdef, List.take_left]
  unfold pkcs7_UnpadData
  rw [hlast]
  dsimp only
  have hcond : ¬ (p = 0 ∨ (wc_PKCS7_PadData x blockSz).length < p) := by
    rw [hlen]; omega
  rw [if_neg hcond]
  have hidx : (wc_PKCS7_PadData x blockSz).length - p = x.length := by omega
  rw [hidx, hdrop, htake]
  have hall : (List.replicate p p).all (fun b => decide (b = p)) = true := by
    simp [List.all_eq_true, List.mem_replicate]
  rw [hall]
  simp

/-- C5: for inSz > 0 and blockSz > 0, wc_PKCS7_GetPadSize returns
blockSz - (inSz mod blockSz), a full blockSz when inSz is a multiple of
blockSz; wc_PKCS7_PadData leaves the input unchanged and fills the pad region
with bytes each equal to the pad length, and the padded length is the smallest
multiple of blockSz strictly greater than inSz (it is a positive multiple of
blockSz, exceeds inSz, and exceeds it by at most blockSz). -/
theorem C5_pad_size (input : Bytes) (blockSz : Nat)
    (hin : 0 < input.length) (hB : 0 < blockSz) :
    wc_PKCS7_GetPadSize input.length blockSz = blockSz - input.length % blockSz ∧
    (input.length % blockSz = 0 → wc_PKCS7_GetPadSize input.length blockSz = blockSz) ∧
    (wc_PKCS7_PadData input blockSz).take input.length = input ∧
    (wc_PKCS7_PadData input blockSz).drop input.length =
      List.replicate (wc_PKCS7_GetPadSize input.length blockSz)
                     (wc_PKCS7_GetPadSize input.length blockSz) ∧
    (wc_PKCS7_PadData input blockSz).length % blockSz = 0 ∧
    input.length < (wc_PKCS7_PadData input blockSz).length ∧
    (wc_PKCS7_PadData input blockSz).length ≤ input.length + blockSz := by
  have hr : input.length % blockSz < blockSz := Nat.mod_lt _ hB
  have hdm := Nat.div_add_mod input.length blockSz
  refine ⟨rfl, ?_, ?_, ?_, ?_, ?_, ?_⟩
  · intro h0; unfold wc_PKCS7_GetPadSize; omega
  · rw [padData_eq, List.take_left]
  · rw [padData_eq, List.drop_left]
  · rw [padData_length]
    have hkey : input.length + wc_PKCS7_GetPadSize input.length blockSz =
        blockSz * (input.length / blockSz) + blockSz := by
      unfold wc_PKCS7_GetPadSize; omega
    rw [hkey, ← Nat.mul_succ, Nat.mul_mod_right]
  · rw [padData_length]
    have := getPadSize_pos input.length blockSz hB
    omega
  · rw [padData_length]
    have := getPadSize_le input.length blockSz
    omega

theorem C5_pad_size_witness :
    wc_PKCS7_GetPadSize 3 4 = 4 - 3 % 4 ∧
    (3 % 4 = 0 → wc_PKCS7_GetPadSize 3 4 = 4) ∧
    (wc_PKCS7_PadData [6, 7, 8] 4).take 3 = [6, 7, 8] ∧
    (wc_PKCS7_PadData [6, 7, 8] 4).drop 3 =
      List.replicate (wc_PKCS7_GetPadSize 3 4) (wc_PKCS7_GetPadSize 3 4) ∧
    (wc_PKCS7_PadData [6, 7, 8] 4).length % 4 = 0 ∧
    3 < (wc_PKCS7_PadData [6, 7, 8] 4).length ∧
    (wc_PKCS7_PadData [6, 7, 8] 4).length ≤ 3 + 4 :=
  C5_pad_size [6, 7, 8] 4 (by decide) (by decide)

/-- C6 counterexample: the padded form of the two-byte content 2,2 at block
size 3 is 2,2,1; tampering the last padding byte from 1 to 2 yields 2,2,2,
on which the validate-and-strip step succeeds (returning the one-byte string
2) instead of failing with BadPadding, because the altered last byte 2 makes
the last two bytes a well-formed pad region. -/
theorem C6_counterexample :
    wc_PKCS7_PadData [2, 2] 3 = [2, 2, 1] ∧
    (wc_PKCS7_PadData [2, 2] 3).dropLast ++ [2] = [2, 2, 2] ∧
    pkcs7_UnpadData [2, 2, 2] = Except.ok [2] ∧
    pkcs7_UnpadData [2, 2, 2] ≠ Except.error PKCS7Error.BadPadding := by
  refine ⟨rfl, rfl, rfl, ?_⟩
  intro h
  have h2 : pkcs7_UnpadData [2, 2, 2] = Except.ok [2] := rfl
  rw [h2] at h
  exact Except.noConfusion h

/-- C6 (amended): for every byte string x and block size B > 0, unpadding the
padded form of x returns exactly x, and padding validation checks that every
pad byte equals the pad length (any buffer whose pad region contains a byte
different from the announced pad length is rejected with BadPadding); however
tampering the last padding byte is only guaranteed never to yield the original
content: the operation either fails with BadPadding or returns a byte string
different from x (it fails with BadPadding in particular whenever the tampered
value does not itself delimit a well-formed pad region). -/
theorem C6_padding_roundtrip (x : Bytes) (blockSz : Nat) (hB : 0 < blockSz)
    (v : Nat) (hv : v ≠ wc_PKCS7_GetPadSize x.length blockSz) :
    pkcs7_UnpadData (wc_PKCS7_PadData x blockSz) = Except.ok x ∧
    (∀ buf : Bytes, ∀ pLen : Nat, buf.getLast? = some pLen →
       ¬ ((buf.drop (buf.length - pLen)).all (fun b => decide (b = pLen)) = true) →
       pkcs7_UnpadData buf = Except.error PKCS7Error.BadPadding) ∧
    (∀ y : Bytes,
       pkcs7_UnpadData ((wc_PKCS7_PadData x blockSz).dropLast ++ [v]) = Except.ok y →
       y ≠ x) := by
  refine ⟨unpad_pad x blockSz hB, ?_, ?_⟩
  · intro buf pLen hlastb hnall
    unfold pkcs7_UnpadData
    rw [hlastb]
    dsimp only
    by_cases hc : pLen = 0 ∨ buf.length < pLen
    · rw [if_pos hc]
    · rw [if_neg hc, if_neg hnall]
  · intro y h
    have hp : 0 < wc_PKCS7_GetPadSize x.length blockSz := getPadSize_pos x.length blockSz hB
    set p := wc_PKCS7_GetPadSize x.length blockSz with hpdef
    set t := (wc_PKCS7_PadData x blockSz).dropLast ++ [v] with htdef
    have hlast : t.getLast? = some v := List.getLast?_concat _
    have hlen : t.length = x.length + p := by
      have h1 := padData_length x blockSz
      have h2 : ([v] : Bytes).length = 1 := rfl
      rw [htdef, List.length_append, List.length_dropLast, h1, h2, ← hpdef]
      omega
    unfold pkcs7_UnpadData at h
    rw [hlast] at h
    dsimp only at h
    by_cases hc : v = 0 ∨ t.length < v
    · rw [if_pos hc] at h
      exact absurd h (by intro hcontra; exact Except.noConfusion hcontra)
    · rw [if_neg hc] at h
      by_cases hall : (t.drop (t.length - v)).all (fun b => decide (b = v)) = true
      · rw [if_pos hall] at h
        injection h with hy
        intro hyx
        have hylen : y.length = t.length - v := by
          rw [← hy, List.length_take]
          omega
        rw [hyx] at hylen
        omega
      · rw [if_neg hall] at h
        exact absurd h (by intro hcontra; exact Except.noConfusion hcontra)

theorem C6_padding_roundtrip_witness :
    pkcs7_UnpadData (wc_PKCS7_PadData [1, 2, 3] 4) = Except.ok [1, 2, 3] ∧
    (∀ buf : Bytes, ∀ pLen : Nat, buf.getLast? = some pLen →
       ¬ ((buf.drop (buf.length - pLen)).all (fun b => decide (b = pLen)) = true) →
       pkcs7_UnpadData buf = Except.error PKCS7Error.BadPadding) ∧
    (∀ y : Bytes,
       pkcs7_UnpadData ((wc_PKCS7_PadData [1, 2, 3] 4).dropLast ++ [5]) = Except.ok y →
       y ≠ [1, 2, 3]) :=
  C6_padding_roundtrip [1, 2, 3] 4 (by decide) 5 (by decide)

/-- Modelled from the spec: the symmetric block-cipher primitive is an
external black box (section 6, collaborator d).  Its key schedule is
idealized as the byte sum of the key reduced modulo 256. -/
def keySum (key : Bytes) : Nat := key.foldl (fun a b => a + b) 0 % 256

/-- Modelled from the spec: symmetric content encryption under the
content-encryption key; idealized as an exactly invertible keyed byte
shift. -/
def cipherEnc (key : Bytes) (m : Bytes) : Bytes :=
  m.map (fun b => (b + keySum key) % 256)

/-- Modelled from the spec: symmetric content decryption, the inverse keyed
byte shift. -/
def cipherDec (key : Bytes) (c : Bytes) : Bytes :=
  c.map (fun b => (b + 256 - keySum key) % 256)

theorem keySum_lt (key : Bytes) : keySum key < 256 :=
  Nat.mod_lt _ (by decide)

theorem cipher_byte_roundtrip (b s : Nat) (hb : b < 256) (hs : s < 256) :
    ((b + s) % 256 + 256 - s) % 256 = b := by omega

theorem cipherDec_cipherEnc (key m : Bytes) (hm : ∀ b ∈ m, b < 256) :
    cipherDec key (cipherEnc key m) = m := by
  induction m with
  | nil => rfl
  | cons a as ih =>
    have ha : a < 256 := hm a (by simp)
    have has : ∀ b ∈ as, b < 256 := fun b hb => hm b (by simp [hb])
    have hih := ih has
    simp only [cipherEnc, cipherDec, List.map_cons] at hih ⊢
    rw [cipher_byte_roundtrip a (keySum key) ha (keySum_lt key), hih]

theorem padData_bytes_lt (x : Bytes) (blockSz : Nat)
    (hx : ∀ b ∈ x, b < 256) (hB : blockSz ≤ 255) :
    ∀ b ∈ wc_PKCS7_PadData x blockSz, b < 256 := by
  intro b hb
  rw [padData_eq] at hb
  rcases List.mem_append.mp hb with h | h
  · exact hx b h
  · have h1 := List.mem_replicate.mp h
    have h2 := getPadSize_le x.length blockSz
    omega

/-- Fine-grained internal condition of one wrapped-key blob: regular, or
carrying a padding irregularity, or carrying some other format irregularity.
The decoder must never reveal this distinction to the caller. -/
inductive UnwrapFlaw
  | regular
  | badPadding
  | badFormat
  deriving DecidableEq

/-- One parsed RecipientInfo entry of an EnvelopedData message: the
self-describing mechanism tag (PKCS7_KTRI, PKCS7_KARI, PKCS7_KEKRI, ...),
the key under which the content-encryption key is wrapped, the internal
regularity of the wrapped blob, and the wrapped content-encryption key
itself (idealized key wrap). -/
structure RecipInfo where
  mech : Nat
  wrapKey : Nat
  flaw : UnwrapFlaw
  cek : Bytes
  deriving DecidableEq

/-- Internal (pre-collapse) outcome of one unwrap attempt; the fine-grained
irregularity is visible here and must be collapsed before reaching the
caller. -/
inductive UnwrapInternal
  | ok (cek : Bytes)
  | noMatch
  | irregular (flaw : UnwrapFlaw)
  deriving DecidableEq

/-- Modelled from the spec: one unwrap attempt of a recipient entry against
the locally available key material (section 4.3; pkcs7.c absent).  The entry
matches when the local key material holds the wrapping key; a matching entry
with an irregular blob reports the fine-grained irregularity internally. -/
def pkcs7_TryUnwrap (keys : List Nat) (r : RecipInfo) : UnwrapInternal :=
  if r.wrapKey ∈ keys then
    (if r.flaw = UnwrapFlaw.regular then UnwrapInternal.ok r.cek
     else UnwrapInternal.irregular r.flaw)
  else UnwrapInternal.noMatch

/-- Modelled from the spec: decode iterates recipient entries in encoded
order and attempts unwrap against local key material; first success wins; a
matching entry with any padding or format irregularity fails uniformly as
KeyUnwrapFailed; when no entry matches, the operation fails with
NoMatchingRecipient (section 4.3; pkcs7.c absent). -/
def pkcs7_FindUnwrap (keys : List Nat) : List RecipInfo → Except PKCS7Error Bytes
  | [] => Except.error PKCS7Error.NoMatchingRecipient
  | r :: rest =>
    match pkcs7_TryUnwrap keys r with
    | UnwrapInternal.ok cek => Except.ok cek
    | UnwrapInternal.noMatch => pkcs7_FindUnwrap keys rest
    | UnwrapInternal.irregular _ => Except.error PKCS7Error.KeyUnwrapFailed

theorem findUnwrap_noMatch (keys : List Nat) (rs : List RecipInfo)
    (h : ∀ r ∈ rs, r.wrapKey ∉ keys) :
    pkcs7_FindUnwrap keys rs = Except.error PKCS7Error.NoMatchingRecipient := by
  induction rs with
  | nil => rfl
  | cons r rest ih =>
    have hr : r.wrapKey ∉ keys := h r (by simp)
    have hrest := ih (fun r2 h2 => h r2 (by simp [h2]))
    simp only [pkcs7_FindUnwrap, pkcs7_TryUnwrap, if_neg hr]
    exact hrest

theorem findUnwrap_at (keys : List Nat) (rs : List RecipInfo) (k : Nat) (hk : k < rs.length)
    (hbefore : ∀ j (hj : j < rs.length), j < k → (rs.get ⟨j, hj⟩).wrapKey ∉ keys)
    (hmatch : (rs.get ⟨k, hk⟩).wrapKey ∈ keys) :
    pkcs7_FindUnwrap keys rs =
      (if (rs.get ⟨k, hk⟩).flaw = UnwrapFlaw.regular
       then Except.ok (rs.get ⟨k, hk⟩).cek
       else Except.error PKCS7Error.KeyUnwrapFailed) := by
  induction rs generalizing k with
  | nil => exact absurd hk (by simp)
  | cons r rest ih =>
    cases k with
    | zero =>
      have hget : (r :: rest).get ⟨0, hk⟩ = r := rfl
      rw [hget] at hmatch ⊢
      by_cases hf : r.flaw = UnwrapFlaw.regular
      · simp only [pkcs7_FindUnwrap, pkcs7_TryUnwrap, if_pos hmatch, if_pos hf]
      · simp only [pkcs7_FindUnwrap, pkcs7_TryUnwrap, if_pos hmatch, if_neg hf]
    | succ k' =>
      have hk' : k' < rest.length := by
        have := hk
        simp only [List.length_cons] at this
        omega
      have hr : r.wrapKey ∉ keys := hbefore 0 (by simp) (Nat.succ_pos k')
      have hget : (r :: rest).get ⟨k' + 1, hk⟩ = rest.get ⟨k', hk'⟩ := rfl
      rw [hget] at hmatch ⊢
      simp only [pkcs7_FindUnwrap, pkcs7_TryUnwrap, if_neg hr]
      exact ih k' hk'
        (fun j hj hjk =>
          hbefore (j + 1) (by simp only [List.length_cons]; omega) (by omega))
        hmatch

/-- One attribute: an OID and a value, from struct PKCS7Attrib at pkcs7.h
lines 98-103 (the oidSz/valueSz length fields are the list lengths here). -/
structure PKCS7Attrib where
  oid : Bytes
  value : Bytes
  deriving DecidableEq

/-- SignerIdentifier carried in a SignerInfo: issuer+serial or
subject-key-identifier, per enum Pkcs7_SignerIdentifier_Types (pkcs7.h
lines 84-87). -/
inductive SignerId
  | issuerAndSerial (issuerHash : Bytes) (serial : Bytes)
  | subjectKeyId (skid : Bytes)
  deriving DecidableEq

/-- One certificate together with the identifiers the engine derives from it
(issuer hash, serial, subject-key-id, public key), per the PKCS7 fields
issuerHash, issuerSn, issuerSubjKeyId, publicKey of pkcs7.h lines 160-175.
Certificate parsing itself is an external collaborator, so the parsed fields
are carried directly. -/
structure CertInfo where
  der : Bytes
  issuerHash : Bytes
  serial : Bytes
  subjKeyId : Bytes
  pubKey : Nat
  deriving DecidableEq

/-- Modelled from the spec: the digest primitive is an external black box
("digest(data) -> fixed-size hash", section 6); idealized as a collision-free
function, here the identity embedding of the data. -/
def digestBytes (data : Bytes) : Bytes := data

/-- Value digested and signed by one SignerInfo: the digest of the raw
content when no signed attributes are present, or the digest of the
canonically encoded signed-attribute set otherwise (section 4.2).  The
canonical DER encoding of the attribute set is an external collaborator and
is idealized as injective, hence the structural constructors. -/
inductive Digest
  | ofContent (c : Bytes)
  | ofAttribs (a : List PKCS7Attrib)
  deriving DecidableEq

/-- An asymmetric signature: idealized as the signing key identifier paired
with the signed digest (sign/verify primitives are external black boxes,
section 6 collaborator c). -/
structure Sig where
  key : Nat
  dgst : Digest
  deriving DecidableEq

/-- Modelled from the spec: signature generation with the private key over a
digest; idealized primitive. -/
def sigSign (privKey : Nat) (d : Digest) : Sig := Sig.mk privKey d

/-- Modelled from the spec: signature verification with the located
certificate's public key; succeeds exactly when the signature was produced
by the matching private key over the same digest (idealized primitive; a key
pair is identified by one Nat). -/
def sigVerify (pubKey : Nat) (d : Digest) (s : Sig) : Bool :=
  decide (s.key = pubKey ∧ s.dgst = d)

/-- One SignerInfo: signer identifier, optional signed attributes, signature
bytes (the digest/signature algorithm OIDs are fixed by the context and
omitted). -/
structure SignerInfo where
  sid : SignerId
  signedAttribs : List PKCS7Attrib
  signature : Sig
  deriving DecidableEq

/-- A decoded SignedData message: certificate set, content, ordered
SignerInfo sequence (section 6 wire format, abstracted over the DER layer
which is an external collaborator). -/
structure SignedDataMsg where
  certs : List CertInfo
  content : Bytes
  signers : List SignerInfo
  deriving DecidableEq

/-- One recipient registered on the context at AddRecipient time: mechanism
tag and the key under which the content-encryption key will be wrapped
(recipient public key for KTRI, pre-shared KEK for KEKRI). -/
structure RecipSpec where
  mech : Nat
  wrapKey : Nat
  deriving DecidableEq

/-- Outer ContentInfo for the Data content type: content type OID and the
payload wrapped verbatim (section 4.5). -/
structure ContentInfo where
  contentType : Nat
  content : Bytes
  deriving DecidableEq

/-- An EnvelopedData message: recipient-info collection plus one encrypted
content (section 6 wire format, abstracted over the DER layer). -/
structure EnvelopedDataMsg where
  contentType : Nat
  recips : List RecipInfo
  encryptedContent : Bytes
  deriving DecidableEq

/-- An EncryptedData message: single-symmetric-key encrypted content with
optional unprotected attributes, no recipients (section 4.5). -/
structure EncryptedDataMsg where
  contentType : Nat
  encryptedContent : Bytes
  unprotectedAttribs : List PKCS7Attrib
  deriving DecidableEq

/-- The PKCS7 message context, following struct PKCS7 of pkcs7.h lines
120-182: content and its size, the parsed-certificate slots cert/certSz
(bounded by MAX_PKCS7_CERTS), the certificate list for the SignedData set,
the single recipient/signer certificate and private key, signed and
unprotected attributes, the SignerIdentifier type selector sidType, the
noDegenerate flag, the symmetric encryptionKey and the cipher block size,
the owned content-encryption key cek/cekSz, the recipient list, and the
locally available unwrapping key material for EnvelopedData decode. -/
structure PKCS7 where
  content : Bytes := []
  contentSz : Nat := 0
  cert : List Bytes := []
  certSz : List Nat := []
  certList : List CertInfo := []
  singleCert : Option CertInfo := none
  privateKey : Nat := 0
  signedAttribs : List PKCS7Attrib := []
  unprotectedAttribs : List PKCS7Attrib := []
  sidType : Nat := SID_ISSUER_AND_SERIAL_NUMBER
  noDegenerate : Bool := false
  encryptionKey : Bytes := []
  blockSz : Nat := 16
  cek : Bytes := []
  cekSz : Nat := 0
  recipList : List RecipSpec := []
  decryptKeys : List Nat := []
  deriving DecidableEq

/-- Modelled from the spec: wc_PKCS7_New (pkcs7.h line 185, pkcs7.c absent)
allocates and initializes a fresh context; every field takes its zeroed
default, so sidType is SID_ISSUER_AND_SERIAL_NUMBER and noDegenerate is
clear.  The heap hint and device id are allocator details out of scope. -/
def wc_PKCS7_New : PKCS7 := {}

/-- Modelled from the spec: wc_PKCS7_Init (pkcs7.h line 186, pkcs7.c absent)
re-initializes an existing context to the zeroed defaults, dropping any
material left from a previous message. -/
def wc_PKCS7_Init (_p : PKCS7) : PKCS7 := {}

/-- Modelled from the spec: wc_PKCS7_AllowDegenerate (pkcs7.h line 211,
pkcs7.c absent) sets the degenerate-allowed configuration: a nonzero flag
permits degenerate SignedData messages (noDegenerate clear), a zero flag
forbids them (noDegenerate set). -/
def wc_PKCS7_AllowDegenerate (p : PKCS7) (flag : Nat) : PKCS7 :=
  if flag ≠ 0 then { p with noDegenerate := false } else { p with noDegenerate := true }

/-- Modelled from the spec: wc_PKCS7_Free (pkcs7.h line 189, pkcs7.c absent)
tears the context down, zeroing the owned content-encryption key bytes
before releasing the buffer.  The second component is the cek buffer
contents at the moment of release. -/
def wc_PKCS7_Free (p : PKCS7) : PKCS7 × Bytes :=
  ({ p with cek := [], cekSz := 0, content := [], contentSz := 0,
            cert := [], certSz := [], certList := [], recipList := [] },
   List.replicate p.cek.length 0)

/-- Modelled from the spec: wc_PKCS7_AddCertificate (pkcs7.h line 188,
pkcs7.c absent) appends one DER certificate and its length to the bounded
certificate slots, failing with CapacityExceeded beyond MAX_PKCS7_CERTS and
leaving the prior entries intact. -/
def wc_PKCS7_AddCertificate (p : PKCS7) (der : Bytes) : PKCS7 × Except PKCS7Error Unit :=
  if MAX_PKCS7_CERTS ≤ p.cert.length then (p, Except.error PKCS7Error.CapacityExceeded)
  else ({ p with cert := p.cert ++ [der], certSz := p.certSz ++ [der.length] },
        Except.ok ())

/-- Modelled from the spec: wc_PKCS7_AddRecipient_KTRI (pkcs7.h line 219,
pkcs7.c absent) registers one key-transport recipient identified by the
public key of the given certificate. -/
def wc_PKCS7_AddRecipient_KTRI (p : PKCS7) (recipCert : CertInfo) : PKCS7 :=
  { p with recipList := p.recipList ++ [RecipSpec.mk PKCS7_KTRI recipCert.pubKey] }

/-- Modelled from the spec: wc_PKCS7_AddRecipient_KEKRI (pkcs7.h line 225,
pkcs7.c absent) registers one key-encryption-key recipient wrapping under a
caller-supplied pre-shared KEK. -/
def wc_PKCS7_AddRecipient_KEKRI (p : PKCS7) (kek : Nat) : PKCS7 :=
  { p with recipList := p.recipList ++ [RecipSpec.mk PKCS7_KEKRI kek] }

/-- Modelled from the spec: wc_PKCS7_EncodeData (pkcs7.h line 202, pkcs7.c
absent) wraps the payload verbatim under the Data content type. -/
def wc_PKCS7_EncodeData (p : PKCS7) : ContentInfo :=
  ContentInfo.mk DATA p.content

/-- Modelled from the spec: the Data branch of the content-type dispatcher
(section 4.5; no decode entry point for Data appears in pkcs7.h, the
dispatcher is pkcs7.c-internal): match the outer content-type OID, return
the payload verbatim, and fail with UnsupportedContentType on any other
OID. -/
def pkcs7_DecodeData (msg : ContentInfo) : Except PKCS7Error Bytes :=
  if msg.contentType = DATA then Except.ok msg.content
  else Except.error PKCS7Error.UnsupportedContentType

/-- OID byte presentation of the content-type authenticated attribute
(1.2.840.113549.1.9.3), one component per list entry. -/
def contentTypeOID : Bytes := [1, 2, 840, 113549, 1, 9, 3]

/-- OID byte presentation of the message-digest authenticated attribute
(1.2.840.113549.1.9.4). -/
def messageDigestOID : Bytes := [1, 2, 840, 113549, 1, 9, 4]

/-- OID byte presentation of the Data content type (1.2.840.113549.1.7.1),
used as the value of a synthesized content-type attribute. -/
def dataOIDBytes : Bytes := [1, 2, 840, 113549, 1, 7, 1]

/-- Modelled from the spec: the signer identifier emitted in a SignerInfo is
issuer+serial or subject-key-id per the context's sidType selector, derived
from the loaded single certificate (section 4.2; pkcs7.c absent). -/
def pkcs7_SignerId (p : PKCS7) (c : CertInfo) : SignerId :=
  if p.sidType = SID_SUBJECT_KEY_IDENTIFIER then SignerId.subjectKeyId c.subjKeyId
  else SignerId.issuerAndSerial c.issuerHash c.serial

/-- Modelled from the spec: certificate matching by byte-exact
issuer-hash+serial or subject-key-identifier comparison (section 4.1;
pkcs7.c absent). -/
def pkcs7_SidMatches (sid : SignerId) (c : CertInfo) : Bool :=
  match sid with
  | SignerId.issuerAndSerial ih sn => decide (c.issuerHash = ih ∧ c.serial = sn)
  | SignerId.subjectKeyId k => decide (c.subjKeyId = k)

/-- Modelled from the spec: when signed attributes are present the encoder
requires a content-type and a message-digest attribute among them,
synthesizing them when absent; when the caller supplied none, the attribute
set stays empty and the signature covers the raw content (section 4.2;
pkcs7.c absent). -/
def pkcs7_BuildSignedAttribs (p : PKCS7) : List PKCS7Attrib :=
  if p.signedAttribs = [] then []
  else
    (if p.signedAttribs.any (fun a => decide (a.oid = contentTypeOID)) then []
     else [PKCS7Attrib.mk contentTypeOID dataOIDBytes]) ++
    (if p.signedAttribs.any (fun a => decide (a.oid = messageDigestOID)) then []
     else [PKCS7Attrib.mk messageDigestOID (digestBytes p.content)]) ++
    p.signedAttribs

/-- Modelled from the spec: wc_PKCS7_EncodeSignedData (pkcs7.h line 206,
pkcs7.c absent): digest the content, or the signed-attribute set when
present; sign the digest with the private key; emit one SignerInfo with the
configured signer identifier; embed the certificate set. -/
def wc_PKCS7_EncodeSignedData (p : PKCS7) : Except PKCS7Error SignedDataMsg :=
  match p.singleCert with
  | none => Except.error PKCS7Error.SignerNotFound
  | some c =>
    Except.ok (SignedDataMsg.mk p.certList p.content
      [SignerInfo.mk (pkcs7_SignerId p c) (pkcs7_BuildSignedAttribs p)
        (sigSign p.privateKey
          (if pkcs7_BuildSignedAttribs p = [] then Digest.ofContent p.content
           else Digest.ofAttribs (pkcs7_BuildSignedAttribs p)))])

/-- Modelled from the spec: verification of one SignerInfo (section 4.2;
pkcs7.c absent): locate the certificate by the encoded signer identifier,
failing with SignerNotFound if absent; when signed attributes are present,
re-validate the mandatory content-type and message-digest attributes against
the actual content and verify the signature over the attribute set,
otherwise verify it over the raw content digest; any mismatch fails with
SignatureVerifyFailed. -/
def pkcs7_VerifyOneSigner (content : Bytes) (certs : List CertInfo)
    (si : SignerInfo) : Except PKCS7Error Unit :=
  match certs.find? (fun c => pkcs7_SidMatches si.sid c) with
  | none => Except.error PKCS7Error.SignerNotFound
  | some c =>
    if si.signedAttribs = [] then
      (if sigVerify c.pubKey (Digest.ofContent content) si.signature then Except.ok ()
       else Except.error PKCS7Error.SignatureVerifyFailed)
    else
      match si.signedAttribs.find? (fun a => decide (a.oid = messageDigestOID)) with
      | none => Except.error PKCS7Error.SignatureVerifyFailed
      | some md =>
        if md.value ≠ digestBytes content then Except.error PKCS7Error.SignatureVerifyFailed
        else if si.signedAttribs.find? (fun a => decide (a.oid = contentTypeOID)) = none then
          Except.error PKCS7Error.SignatureVerifyFailed
        else if sigVerify c.pubKey (Digest.ofAttribs si.signedAttribs) si.signature then
          Except.ok ()
        else Except.error PKCS7Error.SignatureVerifyFailed

/-- Modelled from the spec: the ordered SignerInfo sequence is verified
signer by signer, the first failure propagating (section 4.2; pkcs7.c
absent). -/
def pkcs7_VerifyAllSigners (content : Bytes) (certs : List CertInfo) :
    List SignerInfo → Except PKCS7Error Unit
  | [] => Except.ok ()
  | si :: rest =>
    match pkcs7_VerifyOneSigner content certs si with
    | Except.ok _ => pkcs7_VerifyAllSigners content certs rest
    | Except.error e => Except.error e

/-- Modelled from the spec: wc_PKCS7_VerifySignedData (pkcs7.h line 212,
pkcs7.c absent): a degenerate message (zero SignerInfo entries,
certificates-only) is accepted exactly when the noDegenerate flag is clear
and rejected with NoSignerInfo otherwise; a non-degenerate message succeeds,
returning the content, when its signers verify. -/
def wc_PKCS7_VerifySignedData (p : PKCS7) (msg : SignedDataMsg) : Except PKCS7Error Bytes :=
  match msg.signers with
  | [] =>
    if p.noDegenerate then Except.error PKCS7Error.NoSignerInfo else Except.ok msg.content
  | si :: rest =>
    match pkcs7_VerifyAllSigners msg.content msg.certs (si :: rest) with
    | Except.ok _ => Except.ok msg.content
    | Except.error e => Except.error e

/-- Modelled from the spec: wc_PKCS7_EncodeEnvelopedData (pkcs7.h line 231,
pkcs7.c absent): wrap the content-encryption key for every registered
recipient, pad the content to the cipher block size, and encrypt it under
the content-encryption key.  The random generation of the cek is external;
the context carries it (field cek). -/
def wc_PKCS7_EncodeEnvelopedData (p : PKCS7) : EnvelopedDataMsg :=
  EnvelopedDataMsg.mk ENVELOPED_DATA
    (p.recipList.map (fun s => RecipInfo.mk s.mech s.wrapKey UnwrapFlaw.regular p.cek))
    (cipherEnc p.cek (wc_PKCS7_PadData p.content p.blockSz))

/-- Modelled from the spec: wc_PKCS7_DecodeEnvelopedData (pkcs7.h line 234,
pkcs7.c absent): match the outer content type, iterate recipient entries to
unwrap the content-encryption key, then decrypt and unpad the content; the
result pairs the recovered content-encryption key with the content. -/
def wc_PKCS7_DecodeEnvelopedData (p : PKCS7) (msg : EnvelopedDataMsg) :
    Except PKCS7Error (Bytes × Bytes) :=
  if msg.contentType ≠ ENVELOPED_DATA then Except.error PKCS7Error.UnsupportedContentType
  else
    match pkcs7_FindUnwrap p.decryptKeys msg.recips with
    | Except.error e => Except.error e
    | Except.ok cek =>
      match pkcs7_UnpadData (cipherDec cek msg.encryptedContent) with
      | Except.error e => Except.error e
      | Except.ok content => Except.ok (cek, content)

/-- Modelled from the spec: wc_PKCS7_EncodeEncryptedData (pkcs7.h line 240,
pkcs7.c absent): pad and encrypt the content under the caller-supplied
symmetric encryption key, with optional unprotected attributes. -/
def wc_PKCS7_EncodeEncryptedData (p : PKCS7) : EncryptedDataMsg :=
  EncryptedDataMsg.mk ENCRYPTED_DATA
    (cipherEnc p.encryptionKey (wc_PKCS7_PadData p.content p.blockSz))
    p.unprotectedAttribs

/-- Modelled from the spec: wc_PKCS7_DecodeEncryptedData (pkcs7.h line 242,
pkcs7.c absent): match the outer content type, decrypt with the
caller-supplied symmetric key, validate and strip the padding. -/
def wc_PKCS7_DecodeEncryptedData (p : PKCS7) (msg : EncryptedDataMsg) :
    Except PKCS7Error Bytes :=
  if msg.contentType ≠ ENCRYPTED_DATA then Except.error PKCS7Error.UnsupportedContentType
  else pkcs7_UnpadData (cipherDec p.encryptionKey msg.encryptedContent)

/-- C7: for every PKCS7 context already holding the configured maximum
number of certificates (MAX_PKCS7_CERTS), wc_PKCS7_AddCertificate fails with
CapacityExceeded and after the failed call every previously added
certificate entry, bytes and length alike, is unchanged (the whole context
is unchanged). -/
theorem C7_certificate_capacity (p : PKCS7) (der : Bytes)
    (hfull : p.cert.length = MAX_PKCS7_CERTS) :
    (wc_PKCS7_AddCertificate p der).2 = Except.error PKCS7Error.CapacityExceeded ∧
    (wc_PKCS7_AddCertificate p der).1.cert = p.cert ∧
    (wc_PKCS7_AddCertificate p der).1.certSz = p.certSz ∧
    (wc_PKCS7_AddCertificate p der).1 = p := by
  unfold wc_PKCS7_AddCertificate
  rw [if_pos (by omega)]
  exact ⟨rfl, rfl, rfl, rfl⟩

theorem C7_certificate_capacity_witness :
    (wc_PKCS7_AddCertificate
      ({ cert := [[1], [2], [3], [4]], certSz := [1, 1, 1, 1] } : PKCS7) [9]).2 =
        Except.error PKCS7Error.CapacityExceeded ∧
    (wc_PKCS7_AddCertificate
      ({ cert := [[1], [2], [3], [4]], certSz := [1, 1, 1, 1] } : PKCS7) [9]).1.cert =
        [[1], [2], [3], [4]] ∧
    (wc_PKCS7_AddCertificate
      ({ cert := [[1], [2], [3], [4]], certSz := [1, 1, 1, 1] } : PKCS7) [9]).1.certSz =
        [1, 1, 1, 1] ∧
    (wc_PKCS7_AddCertificate
      ({ cert := [[1], [2], [3], [4]], certSz := [1, 1, 1, 1] } : PKCS7) [9]).1 =
        ({ cert := [[1], [2], [3], [4]], certSz := [1, 1, 1, 1] } : PKCS7) :=
  C7_certificate_capacity { cert := [[1], [2], [3], [4]], certSz := [1, 1, 1, 1] } [9]
    (by decide)

/-- C8: for every context holding a content-encryption key, teardown by
wc_PKCS7_Free zeroes the key bytes before releasing the buffer (the released
buffer has the key's length and every byte zero, and the torn-down context
no longer holds the key), and re-initializing the context for a different
message via wc_PKCS7_Init likewise leaves no key material behind. -/
theorem C8_cek_hygiene (p : PKCS7) :
    (wc_PKCS7_Free p).2 = List.replicate p.cek.length 0 ∧
    (wc_PKCS7_Free p).2.length = p.cek.length ∧
    (∀ b ∈ (wc_PKCS7_Free p).2, b = 0) ∧
    (wc_PKCS7_Free p).1.cek = [] ∧
    (wc_PKCS7_Init p).cek = [] := by
  refine ⟨rfl, by simp [wc_PKCS7_Free], ?_, rfl, rfl⟩
  intro b hb
  exact List.eq_of_mem_replicate (show b ∈ List.replicate p.cek.length 0 from hb)

theorem C8_cek_hygiene_witness :
    (wc_PKCS7_Free ({ cek := [9, 9], cekSz := 2 } : PKCS7)).2 =
      List.replicate ([9, 9] : Bytes).length 0 ∧
    (wc_PKCS7_Free ({ cek := [9, 9], cekSz := 2 } : PKCS7)).2.length =
      ([9, 9] : Bytes).length ∧
    (∀ b ∈ (wc_PKCS7_Free ({ cek := [9, 9], cekSz := 2 } : PKCS7)).2, b = 0) ∧
    (wc_PKCS7_Free ({ cek := [9, 9], cekSz := 2 } : PKCS7)).1.cek = [] ∧
    (wc_PKCS7_Init ({ cek := [9, 9], cekSz := 2 } : PKCS7)).cek = [] :=
  C8_cek_hygiene { cek := [9, 9], cekSz := 2 }

/-- C10: a context freshly initialized by wc_PKCS7_New or wc_PKCS7_Init has
signer-identifier type SID_ISSUER_AND_SERIAL_NUMBER and a clear noDegenerate
flag, so a degenerate certificates-only SignedData message is accepted by
default without any explicit enabling call. -/
theorem C10_default_config :
    wc_PKCS7_New.sidType = SID_ISSUER_AND_SERIAL_NUMBER ∧
    wc_PKCS7_New.noDegenerate = false ∧
    (∀ p : PKCS7, (wc_PKCS7_Init p).sidType = SID_ISSUER_AND_SERIAL_NUMBER ∧
                  (wc_PKCS7_Init p).noDegenerate = false) ∧
    (∀ msg : SignedDataMsg, msg.signers = [] →
       wc_PKCS7_VerifySignedData wc_PKCS7_New msg = Except.ok msg.content) := by
  refine ⟨rfl, rfl, fun p => ⟨rfl, rfl⟩, ?_⟩
  intro msg hsig
  obtain ⟨certs, content, signers⟩ := msg
  dsimp only at hsig
  subst hsig
  rfl

theorem C10_default_config_witness :
    wc_PKCS7_VerifySignedData wc_PKCS7_New (SignedDataMsg.mk [] [5] []) = Except.ok [5] :=
  C10_default_config.2.2.2 (SignedDataMsg.mk [] [5] []) rfl

/-- C4: a SignedData message with zero SignerInfo entries and only
certificates verifies successfully exactly when the configuration permits
degenerate messages (the noDegenerate flag, driven by
wc_PKCS7_AllowDegenerate, is clear); when degenerate mode is not permitted
it fails with NoSignerInfo. -/
theorem C4_degenerate_verify (p : PKCS7) (msg : SignedDataMsg)
    (hsig : msg.signers = []) :
    (wc_PKCS7_VerifySignedData p msg = Except.ok msg.content ↔ p.noDegenerate = false) ∧
    (p.noDegenerate = true →
       wc_PKCS7_VerifySignedData p msg = Except.error PKCS7Error.NoSignerInfo) ∧
    (wc_PKCS7_AllowDegenerate p 1).noDegenerate = false ∧
    (wc_PKCS7_AllowDegenerate p 0).noDegenerate = true := by
  obtain ⟨certs, content, signers⟩ := msg
  dsimp only at hsig ⊢
  subst hsig
  refine ⟨?_, ?_, by simp [wc_PKCS7_AllowDegenerate], by simp [wc_PKCS7_AllowDegenerate]⟩
  · unfold wc_PKCS7_VerifySignedData
    cases hnd : p.noDegenerate with
    | false => simp
    | true => simp
  · intro hnd
    unfold wc_PKCS7_VerifySignedData
    rw [hnd]
    rfl

theorem C4_degenerate_verify_witness :
    (wc_PKCS7_VerifySignedData ({ noDegenerate := true } : PKCS7)
        (SignedDataMsg.mk [] [7] []) =
        Except.ok (SignedDataMsg.mk [] [7] []).content ↔
      ({ noDegenerate := true } : PKCS7).noDegenerate = false) ∧
    (({ noDegenerate := true } : PKCS7).noDegenerate = true →
       wc_PKCS7_VerifySignedData ({ noDegenerate := true } : PKCS7)
         (SignedDataMsg.mk [] [7] []) = Except.error PKCS7Error.NoSignerInfo) ∧
    (wc_PKCS7_AllowDegenerate ({ noDegenerate := true } : PKCS7) 1).noDegenerate = false ∧
    (wc_PKCS7_AllowDegenerate ({ noDegenerate := true } : PKCS7) 0).noDegenerate = true :=
  C4_degenerate_verify { noDegenerate := true } (SignedDataMsg.mk [] [7] []) rfl

theorem encodeEnv_recips_get (p : PKCS7) (k : Nat) (hk : k < p.recipList.length)
    (hk2 : k < (wc_PKCS7_EncodeEnvelopedData p).recips.length) :
    (wc_PKCS7_EncodeEnvelopedData p).recips.get ⟨k, hk2⟩ =
      RecipInfo.mk (p.recipList.get ⟨k, hk⟩).mech (p.recipList.get ⟨k, hk⟩).wrapKey
        UnwrapFlaw.regular p.cek := by
  simp [wc_PKCS7_EncodeEnvelopedData, List.get_eq_getElem, List.getElem_map]

/-- C3: for an EnvelopedData message with N recipient entries whose local
key material matches only entry k, decode succeeds and recovers the original
content-encryption key and content, whatever the position k; when no
recipient entry matches the available key material, decode fails with
NoMatchingRecipient. -/
theorem C3_recipient_isolation (pSend pRecv : PKCS7) (k : Nat)
    (hk : k < pSend.recipList.length)
    (hmatch : (pSend.recipList.get ⟨k, hk⟩).wrapKey ∈ pRecv.decryptKeys)
    (honly : ∀ j (hj : j < pSend.recipList.length), j ≠ k →
       (pSend.recipList.get ⟨j, hj⟩).wrapKey ∉ pRecv.decryptKeys)
    (hbytes : ∀ b ∈ pSend.content, b < 256)
    (hB : 0 < pSend.blockSz) (hB255 : pSend.blockSz ≤ 255) :
    wc_PKCS7_DecodeEnvelopedData pRecv (wc_PKCS7_EncodeEnvelopedData pSend) =
      Except.ok (pSend.cek, pSend.content) ∧
    (∀ pNone : PKCS7, (∀ r ∈ pSend.recipList, r.wrapKey ∉ pNone.decryptKeys) →
       wc_PKCS7_DecodeEnvelopedData pNone (wc_PKCS7_EncodeEnvelopedData pSend) =
         Except.error PKCS7Error.NoMatchingRecipient) := by
  have hlen : (wc_PKCS7_EncodeEnvelopedData pSend).recips.length = pSend.recipList.length := by
    simp [wc_PKCS7_EncodeEnvelopedData]
  have hct : ¬ ((wc_PKCS7_EncodeEnvelopedData pSend).contentType ≠ ENVELOPED_DATA) := by
    simp [wc_PKCS7_EncodeEnvelopedData]
  have hk2 : k < (wc_PKCS7_EncodeEnvelopedData pSend).recips.length := by omega
  have hget := encodeEnv_recips_get pSend k hk hk2
  have hdecrypt : cipherDec pSend.cek (wc_PKCS7_EncodeEnvelopedData pSend).encryptedContent =
      wc_PKCS7_PadData pSend.content pSend.blockSz := by
    have henc : (wc_PKCS7_EncodeEnvelopedData pSend).encryptedContent =
        cipherEnc pSend.cek (wc_PKCS7_PadData pSend.content pSend.blockSz) := rfl
    rw [henc]
    exact cipherDec_cipherEnc _ _ (padData_bytes_lt pSend.content pSend.blockSz hbytes hB255)
  constructor
  · have hbefore : ∀ j (hj : j < (wc_PKCS7_EncodeEnvelopedData pSend).recips.length), j < k →
        ((wc_PKCS7_EncodeEnvelopedData pSend).recips.get ⟨j, hj⟩).wrapKey ∉
          pRecv.decryptKeys := by
      intro j hj hjk
      have hj2 : j < pSend.recipList.length := by omega
      rw [encodeEnv_recips_get pSend j hj2 hj]
      exact honly j hj2 (by omega)
    have hmatch2 : ((wc_PKCS7_EncodeEnvelopedData pSend).recips.get ⟨k, hk2⟩).wrapKey ∈
        pRecv.decryptKeys := by
      rw [hget]; exact hmatch
    have h1 := findUnwrap_at pRecv.decryptKeys (wc_PKCS7_EncodeEnvelopedData pSend).recips
      k hk2 hbefore hmatch2
    rw [hget] at h1
    have hfind : pkcs7_FindUnwrap pRecv.decryptKeys
        (wc_PKCS7_EncodeEnvelopedData pSend).recips = Except.ok pSend.cek := by
      simpa using h1
    unfold wc_PKCS7_DecodeEnvelopedData
    rw [if_neg hct, hfind]
    dsimp only
    rw [hdecrypt, unpad_pad pSend.content pSend.blockSz hB]
  · intro pNone hnone
    have hall : ∀ r ∈ (wc_PKCS7_EncodeEnvelopedData pSend).recips,
        r.wrapKey ∉ pNone.decryptKeys := by
      intro r hr
      have hex : ∃ s ∈ pSend.recipList,
          RecipInfo.mk s.mech s.wrapKey UnwrapFlaw.regular pSend.cek = r := by
        simpa [wc_PKCS7_EncodeEnvelopedData] using hr
      obtain ⟨s, hs, heq⟩ := hex
      rw [← heq]
      exact hnone s hs
    unfold wc_PKCS7_DecodeEnvelopedData
    rw [if_neg hct, findUnwrap_noMatch pNone.decryptKeys _ hall]

theorem C3_recipient_isolation_witness :
    wc_PKCS7_DecodeEnvelopedData ({ decryptKeys := [7] } : PKCS7)
      (wc_PKCS7_EncodeEnvelopedData
        ({ recipList := [RecipSpec.mk PKCS7_KTRI 11, RecipSpec.mk PKCS7_KTRI 7],
           content := [1, 2, 3], cek := [5], blockSz := 4 } : PKCS7)) =
      Except.ok ([5], [1, 2, 3]) ∧
    (∀ pNone : PKCS7,
       (∀ r ∈ ({ recipList := [RecipSpec.mk PKCS7_KTRI 11, RecipSpec.mk PKCS7_KTRI 7],
                 content := [1, 2, 3], cek := [5], blockSz := 4 } : PKCS7).recipList,
          r.wrapKey ∉ pNone.decryptKeys) →
       wc_PKCS7_DecodeEnvelopedData pNone
         (wc_PKCS7_EncodeEnvelopedData
           ({ recipList := [RecipSpec.mk PKCS7_KTRI 11, RecipSpec.mk PKCS7_KTRI 7],
              content := [1, 2, 3], cek := [5], blockSz := 4 } : PKCS7)) =
         Except.error PKCS7Error.NoMatchingRecipient) :=
  C3_recipient_isolation
    { recipList := [RecipSpec.mk PKCS7_KTRI 11, RecipSpec.mk PKCS7_KTRI 7],
      content := [1, 2, 3], cek := [5], blockSz := 4 }
    { decryptKeys := [7] } 1 (by decide) (by decide) (by decide) (by decide)
    (by decide) (by decide)

theorem decodeEnv_error_of_findUnwrap (p : PKCS7) (m : EnvelopedDataMsg)
    (hm : m.contentType = ENVELOPED_DATA) (e : PKCS7Error)
    (he : pkcs7_FindUnwrap p.decryptKeys m.recips = Except.error e) :
    wc_PKCS7_DecodeEnvelopedData p m = Except.error e := by
  unfold wc_PKCS7_DecodeEnvelopedData
  rw [if_neg (by simp [hm]), he]

/-- C9: for EnvelopedData decode runs that fail, the error content returned
to the caller never goes beyond the coarse categories: a run whose matching
recipient entry carries any padding or format irregularity fails exactly
with KeyUnwrapFailed, and the error value is the same whichever fine-grained
irregularity the entry carries; a run in which no recipient entry matches
the local key material fails exactly with NoMatchingRecipient. -/
theorem C9_unwrap_failure_uniformity (pRecv : PKCS7) (msg : EnvelopedDataMsg) (k : Nat)
    (hct : msg.contentType = ENVELOPED_DATA)
    (hk : k < msg.recips.length)
    (hmatch : (msg.recips.get ⟨k, hk⟩).wrapKey ∈ pRecv.decryptKeys)
    (hflaw : (msg.recips.get ⟨k, hk⟩).flaw ≠ UnwrapFlaw.regular)
    (hbefore : ∀ j (hj : j < msg.recips.length), j < k →
       (msg.recips.get ⟨j, hj⟩).wrapKey ∉ pRecv.decryptKeys) :
    wc_PKCS7_DecodeEnvelopedData pRecv msg = Except.error PKCS7Error.KeyUnwrapFailed ∧
    (∀ f : UnwrapFlaw, f ≠ UnwrapFlaw.regular →
       wc_PKCS7_DecodeEnvelopedData pRecv
         { msg with recips :=
             (msg.recips.set k
               (RecipInfo.mk (msg.recips.get ⟨k, hk⟩).mech
                 (msg.recips.get ⟨k, hk⟩).wrapKey f (msg.recips.get ⟨k, hk⟩).cek)) } =
         Except.error PKCS7Error.KeyUnwrapFailed) ∧
    (∀ p2 : PKCS7, ∀ msg2 : EnvelopedDataMsg, msg2.contentType = ENVELOPED_DATA →
       (∀ r ∈ msg2.recips, r.wrapKey ∉ p2.decryptKeys) →
       wc_PKCS7_DecodeEnvelopedData p2 msg2 =
         Except.error PKCS7Error.NoMatchingRecipient) := by
  refine ⟨?_, ?_, ?_⟩
  · have h1 := findUnwrap_at pRecv.decryptKeys msg.recips k hk hbefore hmatch
    rw [if_neg hflaw] at h1
    exact decodeEnv_error_of_findUnwrap pRecv msg hct _ h1
  · intro f hf
    set r := msg.recips.get ⟨k, hk⟩ with hr
    set rs2 := msg.recips.set k (RecipInfo.mk r.mech r.wrapKey f r.cek) with hrs2
    have hlen2 : rs2.length = msg.recips.length := by
      rw [hrs2]; exact List.length_set msg.recips k _
    have hk2 : k < rs2.length := by omega
    have hget2 : rs2.get ⟨k, hk2⟩ = RecipInfo.mk r.mech r.wrapKey f r.cek := by
      rw [List.get_eq_getElem]
      simp [hrs2]
    have hbefore2 : ∀ j (hj : j < rs2.length), j < k →
        (rs2.get ⟨j, hj⟩).wrapKey ∉ pRecv.decryptKeys := by
      intro j hj hjk
      have hj2 : j < msg.recips.length := by omega
      have hgj : rs2.get ⟨j, hj⟩ = msg.recips.get ⟨j, hj2⟩ := by
        rw [List.get_eq_getElem, List.get_eq_getElem]
        exact List.getElem_set_ne (Nat.ne_of_gt hjk) _
      rw [hgj]
      exact hbefore j hj2 hjk
    have hmatch2 : (rs2.get ⟨k, hk2⟩).wrapKey ∈ pRecv.decryptKeys := by
      rw [hget2]; exact hmatch
    have h2 := findUnwrap_at pRecv.decryptKeys rs2 k hk2 hbefore2 hmatch2
    rw [hget2] at h2
    rw [if_neg hf] at h2
    exact decodeEnv_error_of_findUnwrap pRecv { msg with recips := rs2 }
      (by simpa using hct) _ h2
  · intro p2 msg2 hct2 hnone
    exact decodeEnv_error_of_findUnwrap p2 msg2 hct2 _
      (findUnwrap_noMatch p2.decryptKeys msg2.recips hnone)

theorem C9_unwrap_failure_uniformity_witness :
    wc_PKCS7_DecodeEnvelopedData ({ decryptKeys := [7] } : PKCS7)
      (EnvelopedDataMsg.mk ENVELOPED_DATA
        [RecipInfo.mk PKCS7_KTRI 9 UnwrapFlaw.regular [],
         RecipInfo.mk PKCS7_KTRI 7 UnwrapFlaw.badPadding [5]] []) =
      Except.error PKCS7Error.KeyUnwrapFailed ∧
    (∀ f : UnwrapFlaw, f ≠ UnwrapFlaw.regular →
       wc_PKCS7_DecodeEnvelopedData ({ decryptKeys := [7] } : PKCS7)
         (EnvelopedDataMsg.mk ENVELOPED_DATA
           [RecipInfo.mk PKCS7_KTRI 9 UnwrapFlaw.regular [],
            RecipInfo.mk PKCS7_KTRI 7 f [5]] []) =
         Except.error PKCS7Error.KeyUnwrapFailed) ∧
    (∀ p2 : PKCS7, ∀ msg2 : EnvelopedDataMsg, msg2.contentType = ENVELOPED_DATA →
       (∀ r ∈ msg2.recips, r.wrapKey ∉ p2.decryptKeys) →
       wc_PKCS7_DecodeEnvelopedData p2 msg2 =
         Except.error PKCS7Error.NoMatchingRecipient) :=
  C9_unwrap_failure_uniformity { decryptKeys := [7] }
    (EnvelopedDataMsg.mk ENVELOPED_DATA
      [RecipInfo.mk PKCS7_KTRI 9 UnwrapFlaw.regular [],
       RecipInfo.mk PKCS7_KTRI 7 UnwrapFlaw.badPadding [5]] [])
    1 rfl (by decide) (by decide) (by decide) (by decide)

theorem sidMatches_self (p : PKCS7) (c : CertInfo) :
    pkcs7_SidMatches (pkcs7_SignerId p c) c = true := by
  unfold pkcs7_SignerId
  split
  · simp [pkcs7_SidMatches]
  · simp [pkcs7_SidMatches]

theorem buildAttribs_empty (p : PKCS7) (h : p.signedAttribs = []) :
    pkcs7_BuildSignedAttribs p = [] := by
  unfold pkcs7_BuildSignedAttribs
  rw [if_pos h]

theorem buildAttribs_eq (p : PKCS7) (hne : p.signedAttribs ≠ [])
    (hmand : ∀ a ∈ p.signedAttribs, a.oid ≠ contentTypeOID ∧ a.oid ≠ messageDigestOID) :
    pkcs7_BuildSignedAttribs p =
      PKCS7Attrib.mk contentTypeOID dataOIDBytes ::
      PKCS7Attrib.mk messageDigestOID (digestBytes p.content) :: p.signedAttribs := by
  unfold pkcs7_BuildSignedAttribs
  rw [if_neg hne]
  have h1 : p.signedAttribs.any (fun a => decide (a.oid = contentTypeOID)) = false := by
    rw [List.any_eq_false]
    intro a ha
    simp [(hmand a ha).1]
  have h2 : p.signedAttribs.any (fun a => decide (a.oid = messageDigestOID)) = false := by
    rw [List.any_eq_false]
    intro a ha
    simp [(hmand a ha).2]
  rw [h1, h2]
  simp

theorem find_self (sid : SignerId) (c : CertInfo) (h : pkcs7_SidMatches sid c = true) :
    List.find? (fun c2 => pkcs7_SidMatches sid c2) [c] = some c := by
  simp [List.find?, h]

theorem verifyOne_sig_ok (content : Bytes) (c : CertInfo) (p : PKCS7)
    (hkey : c.pubKey = p.privateKey)
    (hmand : ∀ a ∈ p.signedAttribs, a.oid ≠ contentTypeOID ∧ a.oid ≠ messageDigestOID)
    (hcontent : content = p.content) :
    pkcs7_VerifyOneSigner content [c]
      (SignerInfo.mk (pkcs7_SignerId p c) (pkcs7_BuildSignedAttribs p)
        (sigSign p.privateKey
          (if pkcs7_BuildSignedAttribs p = [] then Digest.ofContent p.content
           else Digest.ofAttribs (pkcs7_BuildSignedAttribs p)))) = Except.ok () := by
  unfold pkcs7_VerifyOneSigner
  rw [find_self _ c (sidMatches_self p c)]
  dsimp only
  subst hcontent
  by_cases hne : p.signedAttribs = []
  · have hb := buildAttribs_empty p hne
    rw [hb]
    simp [sigVerify, sigSign, hkey]
  · have hb := buildAttribs_eq p hne hmand
    rw [hb]
    have hfmd : (PKCS7Attrib.mk contentTypeOID dataOIDBytes ::
        PKCS7Attrib.mk messageDigestOID (digestBytes p.content) ::
        p.signedAttribs).find? (fun a => decide (a.oid = messageDigestOID)) =
        some (PKCS7Attrib.mk messageDigestOID (digestBytes p.content)) := by
      rw [List.find?_cons_of_neg, List.find?_cons_of_pos]
      · simp
      · simp [contentTypeOID, messageDigestOID]
    have hfct : (PKCS7Attrib.mk contentTypeOID dataOIDBytes ::
        PKCS7Attrib.mk messageDigestOID (digestBytes p.content) ::
        p.signedAttribs).find? (fun a => decide (a.oid = contentTypeOID)) =
        some (PKCS7Attrib.mk contentTypeOID dataOIDBytes) := by
      rw [List.find?_cons_of_pos]
      simp
    simp [hfmd, hfct, sigVerify, sigSign, hkey]

theorem verify_single (p : PKCS7) (certs : List CertInfo) (content : Bytes)
    (si : SignerInfo) :
    wc_PKCS7_VerifySignedData p (SignedDataMsg.mk certs content [si]) =
      (match pkcs7_VerifyOneSigner content certs si with
       | Except.ok _ => Except.ok content
       | Except.error e => Except.error e) := by
  cases h : pkcs7_VerifyOneSigner content certs si with
  | ok u => simp [wc_PKCS7_VerifySignedData, pkcs7_VerifyAllSigners, h]
  | error e => simp [wc_PKCS7_VerifySignedData, pkcs7_VerifyAllSigners, h]

theorem verify_encode_ok (p : PKCS7) (c : CertInfo)
    (hcert : p.singleCert = some c) (hlist : p.certList = [c])
    (hkey : c.pubKey = p.privateKey)
    (hmand : ∀ a ∈ p.signedAttribs, a.oid ≠ contentTypeOID ∧ a.oid ≠ messageDigestOID) :
    wc_PKCS7_EncodeSignedData p = Except.ok (SignedDataMsg.mk [c] p.content
      [SignerInfo.mk (pkcs7_SignerId p c) (pkcs7_BuildSignedAttribs p)
        (sigSign p.privateKey
          (if pkcs7_BuildSignedAttribs p = [] then Digest.ofContent p.content
           else Digest.ofAttribs (pkcs7_BuildSignedAttribs p)))]) ∧
    wc_PKCS7_VerifySignedData p (SignedDataMsg.mk [c] p.content
      [SignerInfo.mk (pkcs7_SignerId p c) (pkcs7_BuildSignedAttribs p)
        (sigSign p.privateKey
          (if pkcs7_BuildSignedAttribs p = [] then Digest.ofContent p.content
           else Digest.ofAttribs (pkcs7_BuildSignedAttribs p)))]) =
      Except.ok p.content := by
  constructor
  · unfold wc_PKCS7_EncodeSignedData
    rw [hcert]
    dsimp only
    rw [hlist]
  · rw [verify_single, verifyOne_sig_ok p.content c p hkey hmand rfl]

theorem verifyOne_tampered_attribs (content : Bytes) (c : CertInfo) (sid : SignerId)
    (hsid : pkcs7_SidMatches sid c = true)
    (attribsFull attribs2 : List PKCS7Attrib) (privKey : Nat)
    (hne : attribs2 ≠ attribsFull) :
    pkcs7_VerifyOneSigner content [c]
      (SignerInfo.mk sid attribs2 (sigSign privKey (Digest.ofAttribs attribsFull))) =
      Except.error PKCS7Error.SignatureVerifyFailed := by
  unfold pkcs7_VerifyOneSigner
  rw [find_self sid c hsid]
  dsimp only
  by_cases hempty : attribs2 = []
  · rw [if_pos hempty]
    have hsv : sigVerify c.pubKey (Digest.ofContent content)
        (sigSign privKey (Digest.ofAttribs attribsFull)) = false :=
      decide_eq_false (fun h => Digest.noConfusion h.2)
    rw [hsv]
    rfl
  · rw [if_neg hempty]
    cases hfmd : attribs2.find? (fun a => decide (a.oid = messageDigestOID)) with
    | none => rfl
    | some md =>
      dsimp only
      by_cases hval : md.value ≠ digestBytes content
      · rw [if_pos hval]
      · rw [if_neg hval]
        by_cases hfct : attribs2.find? (fun a => decide (a.oid = contentTypeOID)) = none
        · rw [if_pos hfct]
        · rw [if_neg hfct]
          have hsv : sigVerify c.pubKey (Digest.ofAttribs attribs2)
              (sigSign privKey (Digest.ofAttribs attribsFull)) = false :=
            decide_eq_false (fun h => hne (Digest.ofAttribs.inj h.2).symm)
          rw [hsv]
          rfl

theorem verifyOne_tampered_content (content2 contentOrig : Bytes) (c : CertInfo)
    (sid : SignerId) (hsid : pkcs7_SidMatches sid c = true) (privKey : Nat)
    (hne : content2 ≠ contentOrig) :
    pkcs7_VerifyOneSigner content2 [c]
      (SignerInfo.mk sid [] (sigSign privKey (Digest.ofContent contentOrig))) =
      Except.error PKCS7Error.SignatureVerifyFailed := by
  unfold pkcs7_VerifyOneSigner
  rw [find_self sid c hsid]
  dsimp only
  rw [if_pos rfl]
  have hsv : sigVerify c.pubKey (Digest.ofContent content2)
      (sigSign privKey (Digest.ofContent contentOrig)) = false :=
    decide_eq_false (fun h => hne (Digest.ofContent.inj h.2).symm)
  rw [hsv]
  rfl

/-- C2: for a well-formed signing context, encode-then-verify succeeds; when
the SignerInfo carries signed attributes, replacing them post-signature by
any different attribute set (in particular altering any signed-attribute
byte) makes verification fail with SignatureVerifyFailed; when no signed
attributes are present the digest is computed directly over the content, and
replacing the content by any different byte string (in particular altering
any content byte) makes verification fail with SignatureVerifyFailed. -/
theorem C2_signed_attribute_binding (p : PKCS7) (c : CertInfo)
    (hcert : p.singleCert = some c) (hlist : p.certList = [c])
    (hkey : c.pubKey = p.privateKey)
    (hmand : ∀ a ∈ p.signedAttribs, a.oid ≠ contentTypeOID ∧ a.oid ≠ messageDigestOID) :
    ∃ si : SignerInfo,
      wc_PKCS7_EncodeSignedData p = Except.ok (SignedDataMsg.mk [c] p.content [si]) ∧
      wc_PKCS7_VerifySignedData p (SignedDataMsg.mk [c] p.content [si]) =
        Except.ok p.content ∧
      (p.signedAttribs ≠ [] → si.signedAttribs ≠ [] ∧
        (∀ attribs2 : List PKCS7Attrib, attribs2 ≠ si.signedAttribs →
          wc_PKCS7_VerifySignedData p
            (SignedDataMsg.mk [c] p.content
              [SignerInfo.mk si.sid attribs2 si.signature]) =
            Except.error PKCS7Error.SignatureVerifyFailed)) ∧
      (p.signedAttribs = [] → si.signedAttribs = [] ∧
        (∀ content2 : Bytes, content2 ≠ p.content →
          wc_PKCS7_VerifySignedData p (SignedDataMsg.mk [c] content2 [si]) =
            Except.error PKCS7Error.SignatureVerifyFailed)) := by
  obtain ⟨henc, hver⟩ := verify_encode_ok p c hcert hlist hkey hmand
  refine ⟨_, henc, hver, ?_, ?_⟩
  · intro hne
    have hb := buildAttribs_eq p hne hmand
    constructor
    · dsimp only
      rw [hb]
      simp
    · intro attribs2 hne2
      dsimp only at hne2
      rw [verify_single]
      dsimp only
      rw [if_neg (show ¬ (pkcs7_BuildSignedAttribs p = []) from by rw [hb]; simp)]
      rw [verifyOne_tampered_attribs p.content c (pkcs7_SignerId p c)
        (sidMatches_self p c) (pkcs7_BuildSignedAttribs p) attribs2 p.privateKey hne2]
  · intro hempty
    have hb := buildAttribs_empty p hempty
    constructor
    · exact hb
    · intro content2 hne2
      rw [verify_single]
      rw [hb, if_pos rfl]
      rw [verifyOne_tampered_content content2 p.content c (pkcs7_SignerId p c)
        (sidMatches_self p c) p.privateKey hne2]

theorem C2_signed_attribute_binding_witness :
    ∃ si : SignerInfo,
      wc_PKCS7_EncodeSignedData
        ({ content := [1, 2], singleCert := some (CertInfo.mk [1] [2] [3] [4] 5),
           certList := [CertInfo.mk [1] [2] [3] [4] 5], privateKey := 5,
           signedAttribs := [PKCS7Attrib.mk [8] [9]] } : PKCS7) =
        Except.ok (SignedDataMsg.mk [CertInfo.mk [1] [2] [3] [4] 5] [1, 2] [si]) ∧
      wc_PKCS7_VerifySignedData
        ({ content := [1, 2], singleCert := some (CertInfo.mk [1] [2] [3] [4] 5),
           certList := [CertInfo.mk [1] [2] [3] [4] 5], privateKey := 5,
           signedAttribs := [PKCS7Attrib.mk [8] [9]] } : PKCS7)
        (SignedDataMsg.mk [CertInfo.mk [1] [2] [3] [4] 5] [1, 2] [si]) =
        Except.ok [1, 2] ∧
      (([PKCS7Attrib.mk [8] [9]] : List PKCS7Attrib) ≠ [] → si.signedAttribs ≠ [] ∧
        (∀ attribs2 : List PKCS7Attrib, attribs2 ≠ si.signedAttribs →
          wc_PKCS7_VerifySignedData
            ({ content := [1, 2], singleCert := some (CertInfo.mk [1] [2] [3] [4] 5),
               certList := [CertInfo.mk [1] [2] [3] [4] 5], privateKey := 5,
               signedAttribs := [PKCS7Attrib.mk [8] [9]] } : PKCS7)
            (SignedDataMsg.mk [CertInfo.mk [1] [2] [3] [4] 5] [1, 2]
              [SignerInfo.mk si.sid attribs2 si.signature]) =
            Except.error PKCS7Error.SignatureVerifyFailed)) ∧
      (([PKCS7Attrib.mk [8] [9]] : List PKCS7Attrib) = [] → si.signedAttribs = [] ∧
        (∀ content2 : Bytes, content2 ≠ [1, 2] →
          wc_PKCS7_VerifySignedData
            ({ content := [1, 2], singleCert := some (CertInfo.mk [1] [2] [3] [4] 5),
               certList := [CertInfo.mk [1] [2] [3] [4] 5], privateKey := 5,
               signedAttribs := [PKCS7Attrib.mk [8] [9]] } : PKCS7)
            (SignedDataMsg.mk [CertInfo.mk [1] [2] [3] [4] 5] content2 [si]) =
            Except.error PKCS7Error.SignatureVerifyFailed)) :=
  C2_signed_attribute_binding
    { content := [1, 2], singleCert := some (CertInfo.mk [1] [2] [3] [4] 5),
      certList := [CertInfo.mk [1] [2] [3] [4] 5], privateKey := 5,
      signedAttribs := [PKCS7Attrib.mk [8] [9]] }
    (CertInfo.mk [1] [2] [3] [4] 5) rfl rfl rfl (by decide)

theorem enveloped_roundtrip_single (p pRecv : PKCS7) (r : RecipSpec)
    (hrecip : p.recipList = [r]) (hrkey : r.wrapKey ∈ pRecv.decryptKeys)
    (hbytes : ∀ b ∈ p.content, b < 256) (hB : 0 < p.blockSz) (hB255 : p.blockSz ≤ 255) :
    wc_PKCS7_DecodeEnvelopedData pRecv (wc_PKCS7_EncodeEnvelopedData p) =
      Except.ok (p.cek, p.content) := by
  have hrecips : (wc_PKCS7_EncodeEnvelopedData p).recips =
      [RecipInfo.mk r.mech r.wrapKey UnwrapFlaw.regular p.cek] := by
    simp [wc_PKCS7_EncodeEnvelopedData, hrecip]
  have hfind : pkcs7_FindUnwrap pRecv.decryptKeys (wc_PKCS7_EncodeEnvelopedData p).recips =
      Except.ok p.cek := by
    rw [hrecips]
    simp [pkcs7_FindUnwrap, pkcs7_TryUnwrap, hrkey]
  have hdec : cipherDec p.cek (wc_PKCS7_EncodeEnvelopedData p).encryptedContent =
      wc_PKCS7_PadData p.content p.blockSz :=
    cipherDec_cipherEnc _ _ (padData_bytes_lt _ _ hbytes hB255)
  unfold wc_PKCS7_DecodeEnvelopedData
  rw [if_neg (by simp [wc_PKCS7_EncodeEnvelopedData]), hfind]
  dsimp only
  rw [hdec, unpad_pad _ _ hB]

theorem encrypted_roundtrip (p : PKCS7) (hbytes : ∀ b ∈ p.content, b < 256)
    (hB : 0 < p.blockSz) (hB255 : p.blockSz ≤ 255) :
    wc_PKCS7_DecodeEncryptedData p (wc_PKCS7_EncodeEncryptedData p) =
      Except.ok p.content := by
  unfold wc_PKCS7_DecodeEncryptedData
  rw [if_neg (by simp [wc_PKCS7_EncodeEncryptedData])]
  have hdec : cipherDec p.encryptionKey (wc_PKCS7_EncodeEncryptedData p).encryptedContent =
      wc_PKCS7_PadData p.content p.blockSz :=
    cipherDec_cipherEnc _ _ (padData_bytes_lt _ _ hbytes hB255)
  rw [hdec, unpad_pad _ _ hB]

/-- C1: for every valid content byte string and supported configuration,
decoding the result of encoding returns exactly the content: for Data
(wc_PKCS7_EncodeData, payload wrapped verbatim), for SignedData
(wc_PKCS7_EncodeSignedData then wc_PKCS7_VerifySignedData, signature
verification succeeding), for EnvelopedData (wc_PKCS7_EncodeEnvelopedData
then wc_PKCS7_DecodeEnvelopedData with the correct recipient key, which also
recovers the content-encryption key), and for EncryptedData
(wc_PKCS7_EncodeEncryptedData then wc_PKCS7_DecodeEncryptedData with the
same symmetric key). -/
theorem C1_roundtrip (p pRecv : PKCS7) (c : CertInfo) (r : RecipSpec)
    (hcert : p.singleCert = some c) (hlist : p.certList = [c])
    (hkey : c.pubKey = p.privateKey)
    (hmand : ∀ a ∈ p.signedAttribs, a.oid ≠ contentTypeOID ∧ a.oid ≠ messageDigestOID)
    (hbytes : ∀ b ∈ p.content, b < 256)
    (hB : 0 < p.blockSz) (hB255 : p.blockSz ≤ 255)
    (hrecip : p.recipList = [r]) (hrkey : r.wrapKey ∈ pRecv.decryptKeys) :
    pkcs7_DecodeData (wc_PKCS7_EncodeData p) = Except.ok p.content ∧
    (∃ msg : SignedDataMsg, wc_PKCS7_EncodeSignedData p = Except.ok msg ∧
       wc_PKCS7_VerifySignedData p msg = Except.ok p.content) ∧
    wc_PKCS7_DecodeEnvelopedData pRecv (wc_PKCS7_EncodeEnvelopedData p) =
      Except.ok (p.cek, p.content) ∧
    wc_PKCS7_DecodeEncryptedData p (wc_PKCS7_EncodeEncryptedData p) =
      Except.ok p.content := by
  refine ⟨?_, ?_, enveloped_roundtrip_single p pRecv r hrecip hrkey hbytes hB hB255,
    encrypted_roundtrip p hbytes hB hB255⟩
  · simp [pkcs7_DecodeData, wc_PKCS7_EncodeData]
  · obtain ⟨henc, hver⟩ := verify_encode_ok p c hcert hlist hkey hmand
    exact ⟨_, henc, hver⟩

theorem C1_roundtrip_witness :
    pkcs7_DecodeData (wc_PKCS7_EncodeData
      ({ content := [104, 105], singleCert := some (CertInfo.mk [1] [2] [3] [4] 5),
         certList := [CertInfo.mk [1] [2] [3] [4] 5], privateKey := 5,
         signedAttribs := [PKCS7Attrib.mk [8] [9]], blockSz := 4, cek := [3],
         recipList := [RecipSpec.mk PKCS7_KTRI 7], encryptionKey := [9] } : PKCS7)) =
      Except.ok [104, 105] ∧
    (∃ msg : SignedDataMsg,
       wc_PKCS7_EncodeSignedData
         ({ content := [104, 105], singleCert := some (CertInfo.mk [1] [2] [3] [4] 5),
            certList := [CertInfo.mk [1] [2] [3] [4] 5], privateKey := 5,
            signedAttribs := [PKCS7Attrib.mk [8] [9]], blockSz := 4, cek := [3],
            recipList := [RecipSpec.mk PKCS7_KTRI 7], encryptionKey := [9] } : PKCS7) =
         Except.ok msg ∧
       wc_PKCS7_VerifySignedData
         ({ content := [104, 105], singleCert := some (CertInfo.mk [1] [2] [3] [4] 5),
            certList := [CertInfo.mk [1] [2] [3] [4] 5], privateKey := 5,
            signedAttribs := [PKCS7Attrib.mk [8] [9]], blockSz := 4, cek := [3],
            recipList := [RecipSpec.mk PKCS7_KTRI 7], encryptionKey := [9] } : PKCS7) msg =
         Except.ok [104, 105]) ∧
    wc_PKCS7_DecodeEnvelopedData ({ decryptKeys := [7] } : PKCS7)
      (wc_PKCS7_EncodeEnvelopedData
        ({ content := [104, 105], singleCert := some (CertInfo.mk [1] [2] [3] [4] 5),
           certList := [CertInfo.mk [1] [2] [3] [4] 5], privateKey := 5,
           signedAttribs := [PKCS7Attrib.mk [8] [9]], blockSz := 4, cek := [3],
           recipList := [RecipSpec.mk PKCS7_KTRI 7], encryptionKey := [9] } : PKCS7)) =
      Except.ok ([3], [104, 105]) ∧
    wc_PKCS7_DecodeEncryptedData
      ({ content := [104, 105], singleCert := some (CertInfo.mk [1] [2] [3] [4] 5),
         certList := [CertInfo.mk [1] [2] [3] [4] 5], privateKey := 5,
         signedAttribs := [PKCS7Attrib.mk [8] [9]], blockSz := 4, cek := [3],
         recipList := [RecipSpec.mk PKCS7_KTRI 7], encryptionKey := [9] } : PKCS7)
      (wc_PKCS7_EncodeEncryptedData
        ({ content := [104, 105], singleCert := some (CertInfo.mk [1] [2] [3] [4] 5),
           certList := [CertInfo.mk [1] [2] [3] [4] 5], privateKey := 5,
           signedAttribs := [PKCS7Attrib.mk [8] [9]], blockSz := 4, cek := [3],
           recipList := [RecipSpec.mk PKCS7_KTRI 7], encryptionKey := [9] } : PKCS7)) =
      Except.ok [104, 105] :=
  C1_roundtrip
    { content := [104, 105], singleCert := some (CertInfo.mk [1] [2] [3] [4] 5),
      certList := [CertInfo.mk [1] [2] [3] [4] 5], privateKey := 5,
      signedAttribs := [PKCS7Attrib.mk [8] [9]], blockSz := 4, cek := [3],
      recipList := [RecipSpec.mk PKCS7_KTRI 7], encryptionKey := [9] }
    { decryptKeys := [7] }
    (CertInfo.mk [1] [2] [3] [4] 5) (RecipSpec.mk PKCS7_KTRI 7)
    rfl rfl rfl (by decide) (by decide) (by decide) (by decide) rfl (by decide)

end WolfPkcs7
